import Mathlib

/-!
Shallow embedding of `sony-osa-fetcher.py`: a paginated fetcher that
normalizes records to `{title, url}` items, diffs them by URL against a
persisted snapshot, notifies per new item, and rewrites the snapshot file.

HTTP responses, the snapshot file and Telegram outcomes are modelled as an
abstract environment; the program logic (pagination arithmetic, item
normalization, diff, the notification loop and the top-level control flow
of `main`) is translated from the source.
-/

namespace SonyOsa

/-- Constants from the module header of the source. -/
def BASE_URL : String := "https://developer.sony.com"

def BATCH_SIZE : Nat := 100

def MAX_CONCURRENT : Nat := 10

/-- The `{title, url}` pair produced by the normalizer (data model `Item`). -/
structure Item where
  title : String
  url : String
deriving DecidableEq, Repr

/-- A raw record from the file API: `key` and `content.post_title` may be
absent. `none` models a missing JSON field. -/
structure RawContent where
  post_title : Option String
deriving DecidableEq, Repr

structure RawItem where
  key : Option String
  content : Option RawContent
deriving DecidableEq, Repr

/-- `process_item` (source lines 30-37): `item.get('key', '')`,
`item.get('content', {}).get('post_title', '')`,
`full_url = f'{BASE_URL}{key}' if key else ''`. -/
def process_item (item : RawItem) : Item :=
  let key := item.key.getD ""
  let content := item.content.getD ⟨none⟩
  let post_title := content.post_title.getD ""
  let full_url := if key = "" then "" else BASE_URL ++ key
  { title := post_title, url := full_url }

/-- The set of URLs of the prior snapshot (source line 139:
`old_urls = {item.get('url') for item in old_result}`; a Python set,
modelled by the list of URLs, whose membership is what the code tests). -/
def old_urls (old_result : List Item) : List String :=
  old_result.map Item.url

/-- The diff (source lines 140-142):
`new_posts = [post for post in new_result if post.get('url') not in old_urls]`. -/
def new_posts (old_result new_result : List Item) : List Item :=
  new_result.filter (fun post => !((old_urls old_result).contains post.url))

/-- Spec-side restatement of the Diff contract, written from the spec's
words: "the subsequence of new items whose url does not appear in the set
of URLs from the previous Snapshot". Used to compare with `new_posts`. -/
def diffSpec (old_result new_result : List Item) : List Item :=
  new_result.filter (fun post => decide (post.url ∉ old_result.map Item.url))

/-- Python `range(start, stop, step)` for a positive step, as a list. -/
def pythonRange (start stop step : Nat) : List Nat :=
  List.range' start ((stop - start + (step - 1)) / step) step

/-- The offsets at which the fetcher issues file-API requests, in request
issue order (source lines 68, 81, 84): the initial count request at offset
0, the first batch at offset 0 again, then
`remaining_offsets = list(range(batch_size, total_files, batch_size))`. -/
def offsetsRequested (batch_size total_files : Nat) : List Nat :=
  0 :: 0 :: pythonRange batch_size total_files batch_size

/-- A file-API response: HTTP status plus the JSON body's fields.
`totalFiles` defaults to 0 and `filesList` to `[]` when missing in the
JSON (the source reads them with `data.get(..., default)`), so the model
stores the post-default values directly. -/
structure FileResp where
  status : Nat
  totalFiles : Nat
  filesList : List RawItem

/-- Abstract run environment: the file API keyed by request offset, the
prior snapshot file (`none` = absent, `some none` = present but not valid
JSON, `some (some l)` = parses to `l`), and the Telegram outcome of the
n-th send attempt. -/
structure Env where
  fileApi : Nat → FileResp
  oldFile : Option (Option (List Item))
  sendOk : Nat → Bool

/-- `fetch_batch` (source lines 47-59): a non-200 status raises; otherwise
the page's records are normalized with `process_item`. -/
def fetch_batch (env : Env) (offset : Nat) : Except String (List Item) :=
  let r := env.fileApi offset
  if r.status ≠ 200 then
    .error ("API request failed with status " ++ toString r.status)
  else
    .ok (r.filesList.map process_item)

/-- `fetch_all_sony_archives` (source lines 62-102): an initial request at
offset 0 learns `totalFiles`; a non-200 raises. Then the first batch is
fetched at offset 0 and the remaining offsets concurrently via
`asyncio.gather`, whose results arrive in task (offset) order; the model
sequences them in that order (`mapM` over `Except` propagates the first
error, as the gathered run raises). Results are flattened with
`all_results.extend` (lines 82, 99-100), modelled by `foldl (· ++ ·)`. -/
def fetch_all_sony_archives (env : Env) (batch_size : Nat) :
    Except String (List Item) :=
  let r0 := env.fileApi 0
  if r0.status ≠ 200 then
    .error ("API request failed with status " ++ toString r0.status)
  else
    let total_files := r0.totalFiles
    match fetch_batch env 0 with
    | .error e => .error e
    | .ok first_batch =>
      match (pythonRange batch_size total_files batch_size).mapM
          (fetch_batch env) with
      | .error e => .error e
      | .ok batch_results => .ok (batch_results.foldl (· ++ ·) first_batch)

/-- `asyncio.gather` semantics for the page tasks: each task `i` deposits
its result in slot `i`; `completed` is the (task index, result) pairs in
whatever order the concurrent fetches finished, and the gathered output
reads the slots back in task-index order. -/
def gatherOut (n : Nat) (completed : List (Nat × List Item)) :
    List (List Item) :=
  (List.range n).map
    (fun i => ((completed.find? (fun c => c.1 == i)).map Prod.snd).getD [])

/-- Flattening of the per-batch results into `all_results`
(source lines 82, 99-100). -/
def assembleAll (first_batch : List Item)
    (batch_results : List (List Item)) : List Item :=
  batch_results.foldl (· ++ ·) first_batch

/-- An observable event of the notification loop. -/
inductive Event where
  | send : Item → Bool → Event
  | sleep : Nat → Event
deriving DecidableEq, Repr

/-- The notification loop (source lines 147-163): for each new post, one
send attempt whose failure is caught and logged, then
`await asyncio.sleep(30)`; `i` numbers the attempts. -/
def notifyLoop (sendOk : Nat → Bool) : Nat → List Item → List Event
  | _, [] => []
  | i, post :: rest =>
    .send post (sendOk i) :: .sleep 30 :: notifyLoop sendOk (i + 1) rest

/-- The items for which the loop attempted a send, in attempt order. -/
def sentItems (trace : List Event) : List Item :=
  trace.filterMap (fun e => match e with
    | .send post _ => some post
    | .sleep _ => none)

/-- Reading the prior snapshot (source lines 134-137): absent file means
`old_result = []`; a file that fails to parse raises (caught only by the
outer handler of `main`). -/
def readOldResult (env : Env) : Except String (List Item) :=
  match env.oldFile with
  | none => .ok []
  | some none => .error ("invalid JSON in snapshot file")
  | some (some l) => .ok l

/-- Observable outcome of one run of `main`: the process exit code, the
content written to the snapshot file (`none` = not written, prior content
unchanged), and the notification-loop trace. -/
structure Outcome where
  exitCode : Nat
  written : Option (List Item)
  trace : List Event
deriving DecidableEq, Repr

/-- `main` (source lines 128-172): fetch, read old snapshot, diff, notify
(per-item failures caught), write the snapshot, exit 0; any uncaught
exception (fetch failure, snapshot parse failure) reaches the outer
handler, which prints and exits 1 before the write. -/
def main (env : Env) : Outcome :=
  match fetch_all_sony_archives env BATCH_SIZE with
  | .error _ => { exitCode := 1, written := none, trace := [] }
  | .ok new_result =>
    match readOldResult env with
    | .error _ => { exitCode := 1, written := none, trace := [] }
    | .ok old_result =>
      let posts := new_posts old_result new_result
      { exitCode := 0
        written := some new_result
        trace := notifyLoop env.sendOk 0 posts }

/-- Python truthiness of an environment variable read with `os.getenv`:
`None` (unset) and the empty string are falsy. -/
def pyTruthy : Option String → Bool
  | none => false
  | some s => !(s == "")

/-- Outcome of a whole process invocation: additionally records whether
any network call was made. -/
structure ProgOutcome where
  exitCode : Nat
  networkCalled : Bool
  written : Option (List Item)
  trace : List Event
deriving DecidableEq, Repr

/-- The whole program (source lines 19-27 then 175-176): the module-level
configuration check runs before `main`; if the bot token or chat id is
falsy the process prints to stderr and exits 1, and `main` — hence every
network call — is never reached. -/
def runProgram (botToken chatId : Option String) (env : Env) : ProgOutcome :=
  if !(pyTruthy botToken) || !(pyTruthy chatId) then
    { exitCode := 1, networkCalled := false, written := none, trace := [] }
  else
    let o := main env
    { exitCode := o.exitCode, networkCalled := true
      written := o.written, trace := o.trace }

/-! ### Helper lemmas -/

theorem new_posts_eq_diffSpec (old_result new_result : List Item) :
    new_posts old_result new_result = diffSpec old_result new_result := by
  unfold new_posts diffSpec
  apply List.filter_congr
  intro x _
  rw [Bool.eq_iff_iff]
  simp [old_urls, List.contains_iff_exists_mem_beq]

/-! ### Claim theorems -/

/-- Claim C1: the diff returns exactly the subsequence of items of the new
list whose url is not among the urls of the old snapshot, in the order of
the new list (it equals the spec-side filter, and is a sublist of the new
list); and on the spec's example it returns exactly the `u2` item. -/
theorem claim_C1 :
    (∀ old_result new_result : List Item,
      new_posts old_result new_result = diffSpec old_result new_result
      ∧ (new_posts old_result new_result).Sublist new_result)
    ∧ new_posts [⟨"A", "u1"⟩] [⟨"A", "u1"⟩, ⟨"B", "u2"⟩] = [⟨"B", "u2"⟩] := by
  refine ⟨fun old_result new_result => ⟨new_posts_eq_diffSpec _ _, ?_⟩, by decide⟩
  exact List.filter_sublist _

/-- Claim C9: diffing a snapshot against itself yields no new posts. -/
theorem claim_C9 : ∀ old_result : List Item,
    new_posts old_result old_result = [] := by
  intro old_result
  simp only [new_posts, List.filter_eq_nil_iff]
  intro a ha
  simp [old_urls, List.contains_iff_exists_mem_beq]
  exact ⟨a, ha, rfl⟩

/-- Claim C4: the normalizer is total (a Lean function on all raw records)
and: a missing `key` yields an empty url, a missing `post_title` (whether
the whole `content` or just the field is absent) yields an empty title,
and a non-empty `key` yields the fixed base URL concatenated with it. -/
theorem claim_C4 : ∀ item : RawItem,
    (item.key = none → (process_item item).url = "")
    ∧ (item.content = none → (process_item item).title = "")
    ∧ (∀ c, item.content = some c → c.post_title = none →
        (process_item item).title = "")
    ∧ (∀ k, item.key = some k → k ≠ "" →
        (process_item item).url = BASE_URL ++ k) := by
  intro item
  refine ⟨fun h => ?_, fun h => ?_, fun c hc hp => ?_, fun k hk hne => ?_⟩
  · simp [process_item, h]
  · simp [process_item, h]
  · simp [process_item, hc, hp]
  · simp [process_item, hk, hne]

/-- Witness for C4 at concrete records: the fully-missing record maps to
empty strings, and a present non-empty key is prefixed with the base URL. -/
theorem claim_C4_witness :
    (process_item ⟨none, none⟩).url = ""
    ∧ (process_item ⟨none, none⟩).title = ""
    ∧ (process_item ⟨some "/a", some ⟨some "T"⟩⟩).url = BASE_URL ++ "/a" :=
  ⟨(claim_C4 ⟨none, none⟩).1 rfl, (claim_C4 ⟨none, none⟩).2.1 rfl,
    (claim_C4 ⟨some "/a", some ⟨some "T"⟩⟩).2.2.2 "/a" rfl (by decide)⟩

theorem mem_pythonRange {P T m : Nat} (hP : 0 < P) :
    m ∈ pythonRange P T P ↔ P ∣ m ∧ P ≤ m ∧ m < T := by
  unfold pythonRange
  rw [List.mem_range']
  constructor
  · rintro ⟨i, hi, rfl⟩
    refine ⟨⟨1 + i, by ring⟩, Nat.le_add_right _ _, ?_⟩
    have h2 : (i + 1) * P ≤ T - P + (P - 1) := (Nat.le_div_iff_mul_le hP).mp hi
    rw [Nat.add_mul, one_mul, Nat.mul_comm] at h2
    generalize P * i = a at h2 ⊢
    omega
  · rintro ⟨⟨k, rfl⟩, hle, hlt⟩
    rcases k with _ | j
    · rw [Nat.mul_zero] at hle; omega
    · refine ⟨j, ?_, by ring⟩
      rw [Nat.lt_iff_add_one_le, Nat.le_div_iff_mul_le hP, Nat.add_mul, one_mul,
        Nat.mul_comm]
      rw [Nat.mul_add, Nat.mul_one] at hlt
      generalize P * j = a at hlt ⊢
      omega

theorem offsets_toFinset {P T : Nat} (hP : 0 < P) :
    (offsetsRequested P T).toFinset
      = insert 0 ((Finset.range T).filter (fun o => o % P = 0)) := by
  ext o
  simp only [offsetsRequested, List.toFinset_cons, List.mem_toFinset,
    Finset.mem_insert, mem_pythonRange hP, Finset.mem_filter, Finset.mem_range,
    List.mem_insert_iff]
  constructor
  · rintro (rfl | rfl | ⟨hdvd, hle, hlt⟩)
    · exact Or.inl rfl
    · exact Or.inl rfl
    · exact Or.inr ⟨hlt, Nat.mod_eq_zero_of_dvd hdvd⟩
  · rintro (rfl | ⟨hlt, hmod⟩)
    · exact Or.inl rfl
    · rcases Nat.eq_zero_or_pos o with rfl | hpos
      · exact Or.inl rfl
      · exact Or.inr (Or.inr ⟨Nat.dvd_of_mod_eq_zero hmod,
          Nat.le_of_dvd hpos (Nat.dvd_of_mod_eq_zero hmod), hlt⟩)

/-- Claim C2 fails as stated: when the first response reports a total count
of 0 (with page size 100), the claim's offset set `{kP : kP < T}` is empty,
yet the fetcher has requested offset 0 — the count request and the
unconditional first batch are both issued at offset 0 before the total is
acted on. -/
theorem claim_C2_counterexample :
    ¬ ((offsetsRequested 100 0).toFinset
        = (Finset.range 0).filter (fun o => o % 100 = 0)) := by decide

/-- Claim C2 amended: for every page size P > 0 and reported total T, the
set of offsets requested is `{0} ∪ ({0, P, 2P, ...} ∩ [0, T))`; whenever
T ≥ 1 this coincides with the claim's `{0, P, 2P, ...} ∩ [0, T)`, and on
the spec's example (T = 250, P = 100) the offsets are {0, 100, 200}, i.e.
3 pages. -/
theorem claim_C2 : ∀ P T : Nat, 0 < P →
    ((offsetsRequested P T).toFinset
        = insert 0 ((Finset.range T).filter (fun o => o % P = 0)))
    ∧ (1 ≤ T → (offsetsRequested P T).toFinset
        = (Finset.range T).filter (fun o => o % P = 0))
    ∧ ((offsetsRequested 100 250).toFinset = {0, 100, 200}
        ∧ (offsetsRequested 100 250).toFinset.card = 3) := by
  intro P T hP
  refine ⟨offsets_toFinset hP, fun hT => ?_, by decide, by decide⟩
  rw [offsets_toFinset hP]
  apply Finset.insert_eq_self.mpr
  simp only [Finset.mem_filter, Finset.mem_range]
  exact ⟨hT, Nat.zero_mod P⟩

/-- Witness for C2 at the spec's example P = 100, T = 250. -/
theorem claim_C2_witness :
    (0 < 100)
    ∧ ((offsetsRequested 100 250).toFinset
        = insert 0 ((Finset.range 250).filter (fun o => o % 100 = 0)))
    ∧ (1 ≤ 250 → (offsetsRequested 100 250).toFinset
        = (Finset.range 250).filter (fun o => o % 100 = 0))
    ∧ ((offsetsRequested 100 250).toFinset = {0, 100, 200}
        ∧ (offsetsRequested 100 250).toFinset.card = 3) :=
  ⟨by decide, claim_C2 100 250 (by decide)⟩

theorem find_slot (pages : List (List Item)) (completed : List (Nat × List Item))
    (hperm : completed.Perm pages.enum) (i : Nat) (hi : i < pages.length) :
    completed.find? (fun c => c.1 == i) = some (i, pages.get ⟨i, hi⟩) := by
  have hmem : ((i, pages.get ⟨i, hi⟩) : Nat × List Item) ∈ pages.enum := by
    rw [List.mk_mem_enum_iff_getElem?]
    simp [List.getElem?_eq_getElem hi]
  have hmem' : ((i, pages.get ⟨i, hi⟩) : Nat × List Item) ∈ completed :=
    hperm.mem_iff.mpr hmem
  have hsome : (completed.find? (fun c => c.1 == i)).isSome := by
    rw [List.find?_isSome]
    exact ⟨_, hmem', by simp⟩
  obtain ⟨c, hc⟩ := Option.isSome_iff_exists.mp hsome
  have hp1 : c.1 = i := by
    have := List.find?_some hc
    simpa using this
  have hcenum : c ∈ pages.enum := hperm.mem_iff.mp (List.mem_of_find?_eq_some hc)
  rw [List.mem_enum_iff_getElem?] at hcenum
  rw [hp1, List.getElem?_eq_getElem hi] at hcenum
  have hc2 : c.2 = pages.get ⟨i, hi⟩ := by
    simpa using hcenum.symm
  rw [hc]
  rw [show c = (c.1, c.2) from rfl, hp1, hc2]

theorem gatherOut_perm (pages : List (List Item))
    (completed : List (Nat × List Item)) (hperm : completed.Perm pages.enum) :
    gatherOut pages.length completed = pages := by
  apply List.ext_get
  · simp [gatherOut]
  · intro i h1 h2
    simp only [gatherOut, List.get_eq_getElem, List.getElem_map, List.getElem_range]
    rw [find_slot pages completed hperm i h2]
    simp

theorem assembleAll_eq (first_batch : List Item)
    (batch_results : List (List Item)) :
    assembleAll first_batch batch_results
      = first_batch ++ batch_results.flatten := by
  induction batch_results generalizing first_batch with
  | nil => simp [assembleAll]
  | cons b bs ih =>
    simp only [assembleAll, List.foldl_cons, List.flatten_cons] at *
    rw [ih (first_batch ++ b), List.append_assoc]

theorem mapM_ok {α : Type} (f : α → Except String (List Item))
    (g : α → List Item) :
    ∀ l : List α, (∀ x ∈ l, f x = .ok (g x)) → l.mapM f = .ok (l.map g) := by
  intro l
  induction l with
  | nil => intro _; rfl
  | cons a l ih =>
    intro h
    rw [List.mapM_cons, h a (List.mem_cons_self a l),
      ih (fun x hx => h x (List.mem_cons_of_mem a hx))]
    rfl

/-- Claim C3: the flattened fetch result is the concatenation of the
per-page item lists in offset order. First conjunct: the gathered page
results are reassembled in task (offset) order for *any* completion order
of the concurrent fetches, and the assembled result is the first batch
followed by the page lists in order, with length the sum of the per-page
lengths. Second conjunct: when every requested page answers 200, the
fetcher returns exactly that concatenation. -/
theorem claim_C3 :
    (∀ (first_batch : List Item) (pages : List (List Item))
        (completed : List (Nat × List Item)), completed.Perm pages.enum →
      assembleAll first_batch (gatherOut pages.length completed)
          = first_batch ++ pages.flatten
      ∧ (assembleAll first_batch (gatherOut pages.length completed)).length
          = first_batch.length + (pages.map List.length).sum)
    ∧ (∀ env : Env,
        (∀ o ∈ offsetsRequested BATCH_SIZE (env.fileApi 0).totalFiles,
          (env.fileApi o).status = 200) →
        fetch_all_sony_archives env BATCH_SIZE
          = .ok ((env.fileApi 0).filesList.map process_item
              ++ ((pythonRange BATCH_SIZE (env.fileApi 0).totalFiles
                    BATCH_SIZE).map
                  (fun o => (env.fileApi o).filesList.map
                    process_item)).flatten)) := by
  constructor
  · intro first_batch pages completed hperm
    rw [gatherOut_perm pages completed hperm, assembleAll_eq]
    simp
  · intro env h
    have h0 : (env.fileApi 0).status = 200 := h 0 (by simp [offsetsRequested])
    have hb0 : fetch_batch env 0
        = .ok ((env.fileApi 0).filesList.map process_item) := by
      simp [fetch_batch, h0]
    have hmap : (pythonRange BATCH_SIZE (env.fileApi 0).totalFiles
          BATCH_SIZE).mapM (fetch_batch env)
        = .ok ((pythonRange BATCH_SIZE (env.fileApi 0).totalFiles
            BATCH_SIZE).map
            (fun o => (env.fileApi o).filesList.map process_item)) := by
      apply mapM_ok
      intro o ho
      have hs : (env.fileApi o).status = 200 :=
        h o (by simp [offsetsRequested, ho])
      simp [fetch_batch, hs]
    simp only [fetch_all_sony_archives, h0, ne_eq, not_true_eq_false,
      if_false, ite_false, hb0, hmap]
    exact congrArg Except.ok (assembleAll_eq _ _)

/-- A successful environment used by witnesses: every file-API response is
a 200 with no files, the snapshot file is absent, all sends succeed. -/
def envOk : Env :=
  { fileApi := fun _ => { status := 200, totalFiles := 0, filesList := [] }
    oldFile := none
    sendOk := fun _ => true }

/-- Witness for C3: two single-item pages completing in reverse order are
still assembled in offset order behind the first batch, and on `envOk`
(all pages 200) the fetcher returns the offset-order concatenation. -/
theorem claim_C3_witness :
    (([(1, [⟨"c", "uc"⟩]), (0, [⟨"b", "ub"⟩])] : List (Nat × List Item)).Perm
        ([[⟨"b", "ub"⟩], [⟨"c", "uc"⟩]] : List (List Item)).enum)
    ∧ (assembleAll [⟨"a", "ua"⟩]
          (gatherOut ([[⟨"b", "ub"⟩], [⟨"c", "uc"⟩]] : List (List Item)).length
            [(1, [⟨"c", "uc"⟩]), (0, [⟨"b", "ub"⟩])])
        = [⟨"a", "ua"⟩] ++ ([[⟨"b", "ub"⟩], [⟨"c", "uc"⟩]] : List (List Item)).flatten
      ∧ (assembleAll [⟨"a", "ua"⟩]
          (gatherOut ([[⟨"b", "ub"⟩], [⟨"c", "uc"⟩]] : List (List Item)).length
            [(1, [⟨"c", "uc"⟩]), (0, [⟨"b", "ub"⟩])])).length
        = ([⟨"a", "ua"⟩] : List Item).length
            + (([[⟨"b", "ub"⟩], [⟨"c", "uc"⟩]] : List (List Item)).map
                List.length).sum)
    ∧ ((∀ o ∈ offsetsRequested BATCH_SIZE (envOk.fileApi 0).totalFiles,
          (envOk.fileApi o).status = 200)
      ∧ fetch_all_sony_archives envOk BATCH_SIZE
          = .ok ((envOk.fileApi 0).filesList.map process_item
              ++ ((pythonRange BATCH_SIZE (envOk.fileApi 0).totalFiles
                    BATCH_SIZE).map
                  (fun o => (envOk.fileApi o).filesList.map
                    process_item)).flatten)) := by
  have hperm :
      (([(1, [⟨"c", "uc"⟩]), (0, [⟨"b", "ub"⟩])] : List (Nat × List Item)).Perm
        ([[⟨"b", "ub"⟩], [⟨"c", "uc"⟩]] : List (List Item)).enum) := by decide
  have hok : ∀ o ∈ offsetsRequested BATCH_SIZE (envOk.fileApi 0).totalFiles,
      (envOk.fileApi o).status = 200 := by decide
  exact ⟨hperm, claim_C3.1 _ _ _ hperm, hok, claim_C3.2 envOk hok⟩

theorem mapM_error {α : Type} (f : α → Except String (List Item)) :
    ∀ (l : List α) (x : α), x ∈ l → (∃ e, f x = .error e) →
      ∃ e, l.mapM f = .error e := by
  intro l
  induction l with
  | nil => intro x hx; cases hx
  | cons a l ih =>
    rintro x hx ⟨e, he⟩
    cases hfa : f a with
    | error e2 =>
      refine ⟨e2, ?_⟩
      rw [List.mapM_cons, hfa]
      rfl
    | ok v =>
      rcases List.mem_cons.mp hx with rfl | hx2
      · rw [hfa] at he; cases he
      · obtain ⟨e3, h3⟩ := ih x hx2 ⟨e, he⟩
        refine ⟨e3, ?_⟩
        rw [List.mapM_cons, hfa]
        show List.cons v <$> l.mapM f = Except.error e3
        rw [h3]
        rfl

theorem fetch_all_error (env : Env)
    (h : ∃ o ∈ offsetsRequested BATCH_SIZE (env.fileApi 0).totalFiles,
        (env.fileApi o).status ≠ 200) :
    ∃ e, fetch_all_sony_archives env BATCH_SIZE = .error e := by
  obtain ⟨o, ho, hstat⟩ := h
  by_cases h0 : (env.fileApi 0).status = 200
  · simp only [offsetsRequested, List.mem_cons] at ho
    rcases ho with rfl | rfl | hor
    · exact absurd h0 hstat
    · exact absurd h0 hstat
    · have hfb : ∃ e, fetch_batch env o = .error e :=
        ⟨"API request failed with status " ++ toString (env.fileApi o).status,
          by simp [fetch_batch, hstat]⟩
      obtain ⟨e, hme⟩ := mapM_error (fetch_batch env) _ o hor hfb
      have hb0 : fetch_batch env 0
          = .ok ((env.fileApi 0).filesList.map process_item) := by
        simp [fetch_batch, h0]
      exact ⟨e, by simp only [fetch_all_sony_archives, h0, ne_eq,
        not_true_eq_false, if_false, ite_false, hb0, hme]⟩
  · exact ⟨"API request failed with status " ++ toString (env.fileApi 0).status,
      by simp [fetch_all_sony_archives, h0]⟩

/-- Claim C5: a non-200 status on any requested file-API page aborts the
whole fetch with an error, and the run exits with code 1 having written
nothing to the snapshot file and attempted no notification. -/
theorem claim_C5 : ∀ env : Env,
    (∃ o ∈ offsetsRequested BATCH_SIZE (env.fileApi 0).totalFiles,
        (env.fileApi o).status ≠ 200) →
    (∃ e, fetch_all_sony_archives env BATCH_SIZE = .error e)
    ∧ main env = { exitCode := 1, written := none, trace := [] } := by
  intro env h
  obtain ⟨e, he⟩ := fetch_all_error env h
  exact ⟨⟨e, he⟩, by simp [main, he]⟩

/-- A failing environment used by witnesses: every file-API response has
status 500. -/
def envErr : Env :=
  { fileApi := fun _ => { status := 500, totalFiles := 0, filesList := [] }
    oldFile := none
    sendOk := fun _ => true }

/-- Witness for C5 on `envErr`: offset 0 answers 500, so the fetch errors
and the run exits 1 without writing or notifying. -/
theorem claim_C5_witness :
    (∃ o ∈ offsetsRequested BATCH_SIZE (envErr.fileApi 0).totalFiles,
        (envErr.fileApi o).status ≠ 200)
    ∧ ((∃ e, fetch_all_sony_archives envErr BATCH_SIZE = .error e)
      ∧ main envErr = { exitCode := 1, written := none, trace := [] }) := by
  have h : ∃ o ∈ offsetsRequested BATCH_SIZE (envErr.fileApi 0).totalFiles,
      (envErr.fileApi o).status ≠ 200 := by decide
  exact ⟨h, claim_C5 envErr h⟩

/-- An environment whose snapshot file exists but does not parse as JSON,
while the fetch itself succeeds (all responses 200). -/
def envParseBad : Env :=
  { fileApi := fun _ => { status := 200, totalFiles := 0, filesList := [] }
    oldFile := some none
    sendOk := fun _ => true }

/-- Claim C6 is false as stated: on `envParseBad` the fetch succeeds
(returning the empty item list), yet the snapshot file is not rewritten —
the unguarded `json.load` of the corrupt prior snapshot raises first, so
the run aborts before the write. -/
theorem claim_C6_counterexample :
    fetch_all_sony_archives envParseBad BATCH_SIZE = .ok []
    ∧ (main envParseBad).written = none
    ∧ (main envParseBad).written ≠ some [] := by
  refine ⟨rfl, rfl, by decide⟩

/-- Claim C6 amended: for every run whose fetch succeeds *and whose prior
snapshot read succeeds* (file absent or valid JSON), the snapshot file
after the run contains exactly the newly fetched full item list, replacing
any prior content, and the run exits 0 — regardless of the outcome of the
notification sends (the environment's send outcomes are arbitrary). -/
theorem claim_C6 : ∀ (env : Env) (new_result old_result : List Item),
    fetch_all_sony_archives env BATCH_SIZE = .ok new_result →
    readOldResult env = .ok old_result →
    (main env).written = some new_result ∧ (main env).exitCode = 0 := by
  intro env new_result old_result hf hr
  simp [main, hf, hr]

/-- An environment where the fetch returns one item, the snapshot file is
absent, and every Telegram send fails. -/
def envSendFail : Env :=
  { fileApi := fun _ =>
      { status := 200, totalFiles := 1
        filesList := [{ key := some "/k", content := some ⟨some "T"⟩ }] }
    oldFile := none
    sendOk := fun _ => false }

/-- Witness for C6 on `envSendFail`: the fetch succeeds with one item and
every send fails, yet the snapshot is rewritten with exactly the fetched
list and the process exits 0. -/
theorem claim_C6_witness :
    fetch_all_sony_archives envSendFail BATCH_SIZE
        = .ok [⟨"T", "https://developer.sony.com/k"⟩]
    ∧ readOldResult envSendFail = .ok []
    ∧ (main envSendFail).written = some [⟨"T", "https://developer.sony.com/k"⟩]
    ∧ (main envSendFail).exitCode = 0 := by
  have hf : fetch_all_sony_archives envSendFail BATCH_SIZE
      = .ok [⟨"T", "https://developer.sony.com/k"⟩] := rfl
  have hr : readOldResult envSendFail = .ok [] := rfl
  have h := claim_C6 envSendFail [⟨"T", "https://developer.sony.com/k"⟩] [] hf hr
  exact ⟨hf, hr, h.1, h.2⟩

/-- Claim C7: the notification loop attempts a send for every new item in
order — the trace is one send event per item, in the order of the new-post
list, each followed by the fixed 30-second sleep — for every pattern of
per-send successes and failures (a failed send does not stop the loop). -/
theorem claim_C7 : ∀ (sendOk : Nat → Bool) (i : Nat) (posts : List Item),
    notifyLoop sendOk i posts
      = (List.enumFrom i posts).flatMap
          (fun x => [Event.send x.2 (sendOk x.1), Event.sleep 30])
    ∧ sentItems (notifyLoop sendOk i posts) = posts := by
  intro sendOk i posts
  induction posts generalizing i with
  | nil => exact ⟨rfl, rfl⟩
  | cons p ps ih =>
    refine ⟨?_, ?_⟩
    · simp only [notifyLoop, List.enumFrom_cons, List.flatMap_cons]
      rw [(ih (i + 1)).1]
      rfl
    · simp only [notifyLoop, sentItems, List.filterMap_cons]
      have := (ih (i + 1)).2
      simp only [sentItems] at this
      simp [this]

/-- Claim C8: if the bot token or chat id is absent from the environment,
the process exits with code 1 with no network call made (and nothing
written or notified). -/
theorem claim_C8 : ∀ (botToken chatId : Option String) (env : Env),
    botToken = none ∨ chatId = none →
    runProgram botToken chatId env
      = { exitCode := 1, networkCalled := false, written := none
          trace := [] } := by
  rintro botToken chatId env (rfl | rfl)
  · simp [runProgram, pyTruthy]
  · rcases botToken with _ | s
    · simp [runProgram, pyTruthy]
    · simp [runProgram, pyTruthy]

/-- Witness for C8: with the bot token unset (and a live environment
available), the process exits 1 without any network call. -/
theorem claim_C8_witness :
    ((none : Option String) = none ∨ (some "chat" : Option String) = none)
    ∧ runProgram none (some "chat") envOk
      = { exitCode := 1, networkCalled := false, written := none
          trace := [] } :=
  ⟨Or.inl rfl, claim_C8 none (some "chat") envOk (Or.inl rfl)⟩

/-- Claim C10: when the snapshot file exists but does not parse as JSON,
the run exits with code 1, no notification send is attempted, and the
snapshot file is not rewritten (its prior content is untouched) — the
corrupt file is not treated as an empty prior snapshot. -/
theorem claim_C10 : ∀ env : Env, env.oldFile = some none →
    (main env).exitCode = 1
    ∧ (main env).written = none
    ∧ (main env).trace = [] := by
  intro env h
  cases hf : fetch_all_sony_archives env BATCH_SIZE with
  | error e => simp [main, hf]
  | ok new_result =>
    have hr : readOldResult env = .error ("invalid JSON in snapshot file") := by
      simp [readOldResult, h]
    simp [main, hf, hr]

/-- Witness for C10 on `envParseBad`: the fetch succeeds yet the corrupt
snapshot aborts the run with exit code 1, no sends, no write. -/
theorem claim_C10_witness :
    envParseBad.oldFile = some none
    ∧ (main envParseBad).exitCode = 1
    ∧ (main envParseBad).written = none
    ∧ (main envParseBad).trace = [] :=
  ⟨rfl, claim_C10 envParseBad rfl⟩

end SonyOsa
